import Mathlib

/-!
Shallow embedding of the Loki datasource query-dispatch layer
(`public/app/plugins/datasource/loki/datasource.ts`).

Conventions of the embedding:
* Wall-clock instants are modelled after `getTime` has run, i.e. as integer
  nanoseconds since the epoch (`Int`).  JavaScript numeric values that are
  integers in every reachable state are modelled as `Int`/`Nat`; the one
  floating-point division the code performs (`range / interval` inside
  `adjustInterval`) is modelled as exact division in `ℚ`, and `Math.ceil` as
  `Int.ceil` on `ℚ`.  The JavaScript `%` operator truncates toward zero, so it
  is modelled by `Int.tmod`.
* `options.maxDataPoints || Infinity` treats `undefined` and `0` as falsy and
  `Math.min (Infinity, maxLines) = maxLines`; `jsLimit` captures exactly that.
* The rxjs pipelines emit at most one value and then complete, fail, or are
  filtered away after a cancellation; `SubResult` enumerates those outcomes.
  The HTTP transport is a `Backend` value giving one outcome per endpoint, and
  every function additionally returns the list of requests it issued, in
  order, so that "issues exactly one call" claims are about that trace.
* The response-to-frame converters (`result_transformer.ts`) are external
  collaborators; their outputs are modelled as tagged values recording which
  converter ran and on which body, which is exactly the provenance the claims
  talk about.
-/

namespace LokiDS

/-! ### Constants (datasource.ts lines 54-64) -/

def DEFAULT_MAX_LINES : Nat := 1000

def LEGACY_QUERY_ENDPOINT : String := "/api/prom/query"

def RANGE_QUERY_ENDPOINT : String := "/loki/api/v1/query_range"

def INSTANT_QUERY_ENDPOINT : String := "/loki/api/v1/query"

/-! ### adjustInterval (datasource.ts lines 621-628)

```js
adjustInterval(interval, range) {
  if (interval !== 0 && range / interval > 11000) {
    interval = Math.ceil(range / 11000);
  }
  return Math.max(interval, 1000);
}
``` -/

def adjustInterval (interval range : Int) : Int :=
  let interval2 : Int :=
    if interval ≠ 0 ∧ (11000 : ℚ) < (range : ℚ) / (interval : ℚ) then
      ⌈(range : ℚ) / 11000⌉
    else interval
  max interval2 1000

/-! ### Time helpers used by createRangeQuery (datasource.ts lines 236-244) -/

def NS_PER_SEC : Int := 1000000000

/-- The `alignedTimes` object literal of `createRangeQuery`:
`start = startNs - startNs % 1e9`, `end = endNs + (1e9 - endNs % 1e9)`. -/
def alignedTimes (startNs endNs : Int) : Int × Int :=
  (startNs - startNs.tmod NS_PER_SEC, endNs + (NS_PER_SEC - endNs.tmod NS_PER_SEC))

/-- `Math.min(options.maxDataPoints || Infinity, this.maxLines)`:
`undefined` and `0` are falsy, and `min Infinity maxLines = maxLines`. -/
def jsLimit (maxDataPoints : Option Nat) (maxLines : Nat) : Nat :=
  match maxDataPoints with
  | none => maxLines
  | some m => if m = 0 then maxLines else min m maxLines

/-! ### Escaping (datasource.ts lines 631-643)

```js
export function lokiRegularEscape(value) {
  if (typeof value === 'string') {
    return value.replace(/'/g, "\\\\'");
  }
  return value;
}
export function lokiSpecialRegexEscape(value) {
  if (typeof value === 'string') {
    return lokiRegularEscape(value.replace(/\\/g, '\\\\\\\\').replace(/[$^*{}\[\]+?.()|]/g, '\\\\$&'));
  }
  return value;
}
```

Decoding the JavaScript string literals: every backslash becomes four
backslashes, every regex metacharacter gains two preceding backslashes, and
every apostrophe gains two preceding backslashes.  A global `replace` with a
single-character pattern is a character-by-character rewrite, modelled as a
structural recursion over the character list. -/

def specialChars : List Char :=
  ['$', '^', '*', '\x7b', '\x7d', '[', ']', '+', '?', '.', '(', ')', '|']

def escBackslashes : List Char → List Char
  | [] => []
  | c :: l => (if c = '\\' then ['\\', '\\', '\\', '\\'] else [c]) ++ escBackslashes l

def escSpecials : List Char → List Char
  | [] => []
  | c :: l => (if c ∈ specialChars then ['\\', '\\', c] else [c]) ++ escSpecials l

def escQuotes : List Char → List Char
  | [] => []
  | c :: l => (if c = '\'' then ['\\', '\\', '\''] else [c]) ++ escQuotes l

def lokiRegularEscape (s : String) : String :=
  String.mk (escQuotes s.data)

def lokiSpecialRegexEscape (s : String) : String :=
  lokiRegularEscape (String.mk (escSpecials (escBackslashes s.data)))

/-! ### Literal-selector semantics for the escape round trip

Modelled from the spec: the escaped value is interpolated into a query
expression, whose string literal is unescaped once by the backend's query
parser, and the resulting pattern is handed to the regex engine, where an
escaped punctuation character denotes that literal character and an unescaped
metacharacter is regex syntax.  Neither the query parser nor the regex engine
is part of the reviewed source (they live in the log backend), so they are
modelled here: `unescapeOnce` removes one level of backslash escaping, and
`parseAsLiteral` succeeds exactly when the pattern is a pure literal — every
atom is either an ordinary non-metacharacter or a backslash-escaped
punctuation character — returning the literal character sequence the pattern
matches (and nothing else). -/

def regexMetaChars : List Char := '\\' :: specialChars

def unescapeOnce : List Char → Option (List Char)
  | [] => some []
  | c :: rest =>
    if c = '\\' then
      match rest with
      | [] => none
      | d :: rest2 => (unescapeOnce rest2).map (d :: ·)
    else (unescapeOnce rest).map (c :: ·)

def parseAsLiteral : List Char → Option (List Char)
  | [] => some []
  | c :: rest =>
    if c = '\\' then
      match rest with
      | [] => none
      | d :: rest2 => if d.isAlphanum then none else (parseAsLiteral rest2).map (d :: ·)
    else if c ∈ regexMetaChars then none
    else (parseAsLiteral rest).map (c :: ·)

/-- Modelled from the spec: the set of strings a selector built from `escaped`
matches, as the literal character sequence it denotes — `some l` means the
selector, after one level of string unescaping, is a literal-only pattern
matching exactly `l`. -/
def literalMeaning (escaped : String) : Option (List Char) :=
  (unescapeOnce escaped.data).bind parseAsLiteral

/-! ### Data model for the dispatch pipelines -/

/-- The fields of `LokiQuery` the dispatch layer reads. -/
structure LokiQuery where
  expr : String
  refId : String
  hide : Bool
  liveStreaming : Bool
deriving DecidableEq, Repr

/-- Modelled from the spec: `parseQuery` (query_utils.ts, outside the reviewed
source) splits an expression into a filter selector and an optional regex
component.  No claim depends on the split itself, so the model keeps the whole
expression as the selector with an empty regex. -/
structure ParsedQuery where
  query : String
  regexp : String
deriving DecidableEq, Repr

def parseQuery (expr : String) : ParsedQuery :=
  { query := expr, regexp := "" }

inductive LokiResultType where
  | stream
  | vector
  | matrix
deriving DecidableEq, Repr

/-- The `data` field of a modern response body: `{resultType, result}`; the
`result` payload is opaque to the dispatch layer and modelled as a string. -/
structure ModernBody where
  resultType : LokiResultType
  result : String
deriving DecidableEq, Repr

/-- A transport failure as seen by the `catchError` handlers: status code,
cancellation flag, and the optional fields `processError` reads.  The
`err.data.error` object case of `processError` is outside what the claims
exercise, so the body is modelled as an optional string. -/
structure TransportErr where
  status : Nat
  cancelled : Bool
  statusText : Option String
  dataStr : Option String
  errMessage : Option String
deriving DecidableEq, Repr

/-- Outcome of one HTTP request: a resolved response (with status and body) or
a rejected promise carrying a `TransportErr`. -/
inductive Outcome (α : Type) where
  | ok (status : Nat) (body : α)
  | fail (e : TransportErr)
deriving DecidableEq, Repr

/-- One backend behaviour: the outcome each endpoint would produce.  `probe`
is the parameterless request `getVersion` sends to the range endpoint. -/
structure Backend where
  range : Outcome ModernBody
  instant : Outcome ModernBody
  legacy : Outcome String
  probe : Outcome ModernBody
deriving Repr

/-- The instant-query request object built in `runInstantQuery`
(lines 211-215). -/
structure InstantQueryRequest where
  query : String
  time : Int
  limit : Nat
deriving DecidableEq, Repr

/-- `LokiRangeQueryRequest` as built by `createRangeQuery` (lines 253-258);
`end_` stands for the source's `end` field. -/
structure LokiRangeQueryRequest where
  direction : String
  regexp : String
  query : String
  start : Option Int
  end_ : Option Int
  step : Option Int
  limit : Nat
deriving DecidableEq, Repr

/-- `LokiLegacyQueryRequest` as built by `runLegacyQuery` (lines 181-187). -/
structure LokiLegacyQueryRequest where
  direction : String
  regexp : String
  query : String
  start : Option Int
  end_ : Option Int
  limit : Nat
  refId : String
deriving DecidableEq, Repr

/-- `LegacyTarget` as built by `createLiveTarget` / `createLegacyLiveTarget`. -/
structure LegacyTarget where
  query : String
  regexp : String
  url : String
  refId : String
  size : Nat
deriving DecidableEq, Repr

/-- One entry of the request trace: which endpoint was hit and with which
request object.  `probe` is the parameterless version probe. -/
inductive Req where
  | probe
  | rangeQuery (q : LokiRangeQueryRequest)
  | instantQuery (q : InstantQueryRequest)
  | legacyQuery (q : LokiLegacyQueryRequest)
deriving DecidableEq, Repr

/-- Provenance-tagged frame data: which converter produced the frames of an
envelope, applied to which response body.  The converters themselves live in
`result_transformer.ts`, an external collaborator. -/
inductive FrameData where
  | legacyConverted (payload : String) (q : LokiLegacyQueryRequest) (maxLines : Nat)
  | rangeConverted (b : ModernBody) (q : LokiRangeQueryRequest) (maxLines : Nat)
  | instantTable (result : String) (responseListLength : Nat) (refId : String)
  | liveStream (legacy : Bool) (t : LegacyTarget)
deriving DecidableEq, Repr

inductive LoadState where
  | Done
  | Streaming
deriving DecidableEq, Repr

/-- A `DataQueryResponse` envelope as emitted by the sub-pipelines. -/
structure Envelope where
  data : List FrameData
  key : Option String
  state : Option LoadState
deriving DecidableEq, Repr

/-- A normalized `DataQueryError` (or a plain thrown `Error`, which carries
only a message). -/
structure QErr where
  message : String
  refId : Option String
  status : Option Nat
  statusText : Option String
deriving DecidableEq, Repr

/-- What one sub-pipeline observable does: emit an envelope, complete empty
(the cancellation filter dropped the only element), or error. -/
inductive SubResult where
  | emits (e : Envelope)
  | empty
  | fails (e : QErr)
deriving DecidableEq, Repr

/-- Datasource instance state and settings: `maxLines`, the base URL, the
mutable `version` cache, and the template-variable substitution collaborator
(`templateSrv.replace` with `interpolateQueryExpr`), modelled as a function. -/
structure DS where
  maxLines : Nat
  baseUrl : String
  version : Option String
  tmplReplace : String → String

/-- The subset of `DataQueryRequest` fields the dispatcher reads; `range` is
the pair `(getTime(range.from, false), getTime(range.to, true))` in
nanoseconds. -/
inductive ExploreMode where
  | Metrics
  | Logs
deriving DecidableEq, Repr

structure RangeQueryOptions where
  range : Option (Int × Int)
  intervalMs : Int
  maxDataPoints : Option Nat
  reverse : Bool

structure DataQueryRequest where
  targets : List LokiQuery
  exploreMode : ExploreMode
  range : Int × Int
  intervalMs : Int
  maxDataPoints : Option Nat
  reverse : Bool

def DataQueryRequest.toRangeOptions (o : DataQueryRequest) : RangeQueryOptions :=
  { range := some o.range, intervalMs := o.intervalMs,
    maxDataPoints := o.maxDataPoints, reverse := o.reverse }

/-! ### Error normalization (datasource.ts lines 588-619) -/

/-- `processError`: message from `err.data` (string case), else `err.message`,
else `err.statusText || default`; always records refId, status, statusText. -/
def processError (err : TransportErr) (target : LokiQuery) : QErr :=
  let base := err.statusText.getD "Unknown error during query transaction. Please check JS console logs."
  let msg :=
    match err.dataStr with
    | some d => d
    | none =>
      match err.errMessage with
      | some m => m
      | none => base
  { message := msg, refId := some target.refId,
    status := some err.status, statusText := err.statusText }

/-! ### Version resolver (datasource.ts lines 96-111)

```js
getVersion() {
  if (this.version) { return Promise.resolve(this.version); }
  return this._request(RANGE_QUERY_ENDPOINT).toPromise()
    .then(() => { this.version = 'v1'; return this.version; })
    .catch(err => { this.version = err.status !== 404 ? 'v1' : 'v0'; return this.version; });
}
```

The trailing `.catch` handles every rejection, so the returned promise always
resolves; the embedding makes that totality explicit by returning a plain
`String` (with the updated instance state and the probe trace). -/

def getVersion (ds : DS) (backend : Backend) : String × List Req × DS :=
  match ds.version with
  | some v => (v, [], ds)
  | none =>
    match backend.probe with
    | .ok _ _ => ("v1", [Req.probe], { ds with version := some "v1" })
    | .fail e =>
      let v := if e.status ≠ 404 then "v1" else "v0"
      (v, [Req.probe], { ds with version := some v })

/-! ### Live targets and the live query (datasource.ts lines 297-351) -/

/-- Modelled from the spec: `convertToWebSocketUrl` (core/utils/explore,
outside the reviewed source) rewrites the HTTP base URL into a websocket URL;
claims do not depend on the exact rewriting. -/
def convertToWebSocketUrl (url : String) : String :=
  "ws:" ++ url

/-- `serializeParams({query})`, with the external `encodeURIComponent`
modelled as the identity (claims do not depend on percent-encoding). -/
def serializeQueryParam (query : String) : String :=
  "query=" ++ query

def createLegacyLiveTarget (ds : DS) (target : LokiQuery) (maxDataPoints : Option Nat) :
    LegacyTarget :=
  let parsed := parseQuery target.expr
  { query := parsed.query
    regexp := parsed.regexp
    url := convertToWebSocketUrl (ds.baseUrl ++ "/api/prom/tail?" ++ serializeQueryParam parsed.query)
    refId := target.refId
    size := jsLimit maxDataPoints ds.maxLines }

def createLiveTarget (ds : DS) (target : LokiQuery) (maxDataPoints : Option Nat) :
    LegacyTarget :=
  let parsed := parseQuery target.expr
  { query := parsed.query
    regexp := parsed.regexp
    url := convertToWebSocketUrl (ds.baseUrl ++ "/loki/api/v1/tail?" ++ serializeQueryParam parsed.query)
    refId := target.refId
    size := jsLimit maxDataPoints ds.maxLines }

/-- `runLiveQuery`: resolve the version (possibly issuing the probe), then
subscribe to the modern or legacy live stream — a websocket subscription, not
an HTTP request — and emit the streaming envelope keyed `loki-<refId>`. -/
def runLiveQuery (ds : DS) (target : LokiQuery) (backend : Backend)
    (maxDataPoints : Option Nat) : SubResult × List Req × DS :=
  let liveTarget := createLiveTarget ds target maxDataPoints
  let out := getVersion ds backend
  let frame :=
    if out.1 = "v1" then FrameData.liveStream false liveTarget
    else FrameData.liveStream true (createLegacyLiveTarget ds target maxDataPoints)
  (SubResult.emits
      { data := [frame]
        key := some ("loki-" ++ liveTarget.refId)
        state := some LoadState.Streaming },
    out.2.1, out.2.2)

/-! ### Legacy query (datasource.ts lines 170-203) -/

/-- The `LokiLegacyQueryRequest` object literal built at lines 181-187. -/
def legacyQueryRequest (ds : DS) (target : LokiQuery) (options : RangeQueryOptions) :
    LokiLegacyQueryRequest :=
  let parsed := parseQuery target.expr
  { direction := "BACKWARD"
    regexp := parsed.regexp
    query := parsed.query
    start := options.range.map (·.1)
    end_ := options.range.map (·.2)
    limit := jsLimit options.maxDataPoints ds.maxLines
    refId := target.refId }

def runLegacyQuery (ds : DS) (target : LokiQuery) (backend : Backend)
    (options : RangeQueryOptions) : SubResult × List Req × DS :=
  if target.liveStreaming then
    runLiveQuery ds target backend options.maxDataPoints
  else
    let query := legacyQueryRequest ds target options
    let tr := [Req.legacyQuery query]
    match backend.legacy with
    | .fail e =>
      if e.cancelled then (SubResult.empty, tr, ds)
      else (SubResult.fails (processError e target), tr, ds)
    | .ok _ payload =>
      (SubResult.emits
          { data := [FrameData.legacyConverted payload query ds.maxLines]
            key := some (target.refId ++ "_log")
            state := none },
        tr, ds)

/-! ### Instant query (datasource.ts lines 205-231) -/

/-- The request object literal built at lines 211-215:
`time` is `timeNs + (1e9 - timeNs % 1e9)`. -/
def instantQueryRequest (ds : DS) (target : LokiQuery) (rangeTo : Int)
    (maxDataPoints : Option Nat) : InstantQueryRequest :=
  { query := (parseQuery target.expr).query
    time := rangeTo + (NS_PER_SEC - rangeTo.tmod NS_PER_SEC)
    limit := jsLimit maxDataPoints ds.maxLines }

def modeMismatchError : QErr :=
  { message := "Metrics mode does not support logs. Use an aggregation or switch to Logs mode."
    refId := none, status := none, statusText := none }

def runInstantQuery (ds : DS) (target : LokiQuery) (backend : Backend)
    (rangeTo : Int) (maxDataPoints : Option Nat) (responseListLength : Nat) :
    SubResult × List Req × DS :=
  let query := instantQueryRequest ds target rangeTo maxDataPoints
  let tr := [Req.instantQuery query]
  match backend.instant with
  | .fail e =>
    if e.cancelled then (SubResult.empty, tr, ds)
    else (SubResult.fails (processError e target), tr, ds)
  | .ok _ body =>
    if body.resultType = LokiResultType.stream then
      (SubResult.fails modeMismatchError, tr, ds)
    else
      (SubResult.emits
          { data := [FrameData.instantTable body.result responseListLength target.refId]
            key := some (target.refId ++ "_instant")
            state := none },
        tr, ds)

/-! ### Range query construction (datasource.ts lines 233-259) -/

def createRangeQuery (ds : DS) (target : LokiQuery) (options : RangeQueryOptions) :
    LokiRangeQueryRequest :=
  let parsed := parseQuery target.expr
  let rangeFields : Option (Int × Int × Int) :=
    match options.range with
    | some (fromNs, toNs) =>
      if options.intervalMs ≠ 0 then
        let rangeMs : Int := ⌈((toNs - fromNs : Int) : ℚ) / 1000000⌉
        let step : Int := ⌈((adjustInterval options.intervalMs rangeMs : Int) : ℚ) / 1000⌉
        let aligned := alignedTimes fromNs toNs
        some (aligned.1, aligned.2, step)
      else none
    | none => none
  { direction := "BACKWARD"
    regexp := ""
    query := parsed.query
    start := rangeFields.map (·.1)
    end_ := rangeFields.map (·.2.1)
    step := rangeFields.map (·.2.2)
    limit := jsLimit options.maxDataPoints ds.maxLines }

/-! ### Range query with 404 fallback (datasource.ts lines 264-295)

On a rejected request the `catchError` rethrows the normalized error unless
the failure is a cancellation or a 404; a cancellation is then dropped by the
`filter`, so the `switchMap` sees either a successful response or the 404
error object, and routes status 404 to `runLegacyQuery`. -/

def runRangeQueryWithFallback (ds : DS) (target : LokiQuery) (backend : Backend)
    (options : RangeQueryOptions) (responseListLength : Nat := 1) :
    SubResult × List Req × DS :=
  if target.liveStreaming then
    runLiveQuery ds target backend options.maxDataPoints
  else
    let query := createRangeQuery ds target options
    let tr := [Req.rangeQuery query]
    match backend.range with
    | .fail e =>
      if e.cancelled ∨ e.status = 404 then
        if e.cancelled then (SubResult.empty, tr, ds)
        else
          -- here e.status = 404: the filter passed the error object through
          let out := runLegacyQuery ds target backend options
          (out.1, tr ++ out.2.1, out.2.2)
      else (SubResult.fails (processError e target), tr, ds)
    | .ok status body =>
      if status = 404 then
        let out := runLegacyQuery ds target backend options
        (out.1, tr ++ out.2.1, out.2.2)
      else
        (SubResult.emits
            { data := [FrameData.rangeConverted body query ds.maxLines]
              key := none
              state := none },
          tr, ds)

/-! ### Query dispatcher (datasource.ts lines 125-168) -/

/-- Modelled from the spec: `isTimeSeries` checks `hasOwnProperty('datapoints')`
on converter output; the converters (external collaborators) produce
time-series frames exactly for numeric (matrix/vector) range results. -/
def isTimeSeries : FrameData → Bool
  | .rangeConverted b _ _ => b.resultType ≠ LokiResultType.stream
  | _ => false

def logsModeError : QErr :=
  { message := "Logs mode does not support queries that return time series data. Please perform a logs query or switch to Metrics mode."
    refId := none, status := none, statusText := none }

/-- The `map` stage piped onto the logs-mode range query. -/
def logsModeCheck : SubResult → SubResult
  | SubResult.emits env =>
    if env.data.any isTimeSeries then SubResult.fails logsModeError
    else SubResult.emits env
  | r => r

/-- The sub-queries pushed for one filtered target, with their request trace
and the updated instance state. -/
def dispatchTarget (ds : DS) (t : LokiQuery) (backend : Backend)
    (options : DataQueryRequest) (n : Nat) : List SubResult × List Req × DS :=
  match options.exploreMode with
  | ExploreMode.Metrics =>
    let o1 := runInstantQuery ds t backend options.range.2 options.maxDataPoints n
    let o2 := runRangeQueryWithFallback o1.2.2 t backend options.toRangeOptions n
    ([o1.1, o2.1], o1.2.1 ++ o2.2.1, o2.2.2)
  | ExploreMode.Logs =>
    let o := runRangeQueryWithFallback ds t backend options.toRangeOptions n
    ([logsModeCheck o.1], o.2.1, o.2.2)

/-- The filter-and-interpolate stage at lines 127-132: drop targets with an
empty expression or the hide flag, then substitute template variables. -/
def filterTargets (ds : DS) (targets : List LokiQuery) : List LokiQuery :=
  (targets.filter fun t => t.expr ≠ "" && !t.hide).map
    fun t => { t with expr := ds.tmplReplace t.expr }

/-- The dispatcher `query`: filter disabled/empty targets, interpolate the
expression, route per mode, merge.  The rxjs `merge` interleaves sub-streams
by arrival; the embedding determinizes it to dispatch order, which preserves
each target's own emissions. -/
def query (ds : DS) (options : DataQueryRequest) (backend : Backend) :
    List SubResult × List Req × DS :=
  let filteredTargets := filterTargets ds options.targets
  let n := filteredTargets.length
  let out := filteredTargets.foldl
    (fun acc t =>
      let o := dispatchTarget acc.2.2 t backend options n
      (acc.1 ++ o.1, acc.2.1 ++ o.2.1, o.2.2))
    (([] : List SubResult), ([] : List Req), ds)
  if out.1.isEmpty then
    ([SubResult.emits { data := [], key := none, state := some LoadState.Done }], [], ds)
  else out

/-- The endpoint each trace entry was sent to (the `apiUrl` argument of
`_request`). -/
def reqUrl : Req → String
  | Req.probe => RANGE_QUERY_ENDPOINT
  | Req.rangeQuery _ => RANGE_QUERY_ENDPOINT
  | Req.instantQuery _ => INSTANT_QUERY_ENDPOINT
  | Req.legacyQuery _ => LEGACY_QUERY_ENDPOINT

/-! ### Concrete fixtures used by witnesses and counterexamples -/

def fixtureDS : DS := ⟨1000, "http://loki", none, id⟩

def fixtureDSCached : DS := ⟨1000, "http://loki", some "v1", id⟩

def fixtureTarget : LokiQuery := ⟨"app log query", "A", false, false⟩

def fixtureLiveTarget : LokiQuery := ⟨"live expr", "L", false, true⟩

def fixtureOpts : RangeQueryOptions := ⟨some (1500000000, 2500000001), 1000, some 100, false⟩

def fixtureBackend404 : Backend :=
  ⟨Outcome.fail ⟨404, false, none, none, none⟩,
   Outcome.ok 200 ⟨LokiResultType.vector, "instant-body"⟩,
   Outcome.ok 200 "legacy-body",
   Outcome.ok 200 ⟨LokiResultType.matrix, "probe-body"⟩⟩

def fixtureBackendOk : Backend :=
  ⟨Outcome.ok 200 ⟨LokiResultType.matrix, "range-body"⟩,
   Outcome.ok 200 ⟨LokiResultType.vector, "instant-body"⟩,
   Outcome.ok 200 "legacy-body",
   Outcome.ok 200 ⟨LokiResultType.matrix, "probe-body"⟩⟩

/-! ## Theorems -/

/-! ### C10: a zero interval never reaches the ratio and the floor wins -/

/-- C10: for every range value, `adjustInterval 0 range = 1000` — the
`interval !== 0` guard keeps a zero interval out of the `range / interval`
recomputation, and the 1000 ms floor is the result no matter how large the
range is. -/
theorem adjustInterval_zero_interval (range : Int) :
    adjustInterval 0 range = 1000 := by
  simp [adjustInterval]

/-! ### C4: interval calibration -/

/-- C4 (counterexample): at `intervalMs = 1`, `rangeMs = 20000` the ratio
`20000 / 1` exceeds 11000, yet `adjustInterval` returns the 1000 ms floor and
not `ceil(20000 / 11000) = 2`, so the claim's "returns `ceil(rangeMs/11000)`"
clause is false on the code. -/
theorem adjustInterval_not_ceil_counterexample :
    (11000 : ℚ) < (20000 : ℚ) / (1 : ℚ) ∧
    adjustInterval 1 20000 = 1000 ∧
    (⌈(20000 : ℚ) / 11000⌉ : Int) = 2 ∧
    adjustInterval 1 20000 ≠ ⌈(20000 : ℚ) / 11000⌉ := by
  have hceil : (⌈(20000 : ℚ) / 11000⌉ : Int) = 2 := by
    rw [Int.ceil_eq_iff]
    norm_num
  have hadj : adjustInterval 1 20000 = 1000 := by
    unfold adjustInterval
    rw [if_pos ⟨by decide, by norm_num⟩]
    have hc : ((20000 : Int) : ℚ) = (20000 : ℚ) := by norm_num
    rw [hc, hceil]
    exact max_eq_right (by norm_num)
  exact ⟨by norm_num, hadj, hceil, by rw [hadj, hceil]; decide⟩

/-- C4 (amended): whenever `rangeMs / intervalMs > 11000` (for a nonzero
interval), `adjustInterval` returns `max (ceil (rangeMs / 11000)) 1000` — the
recomputed interval still goes through the 1000 ms floor — and for every
input the result is at least 1000 ms. -/
theorem adjustInterval_calibrates (interval range : Int) :
    (interval ≠ 0 → (11000 : ℚ) < (range : ℚ) / (interval : ℚ) →
      adjustInterval interval range = max ⌈(range : ℚ) / 11000⌉ 1000) ∧
    1000 ≤ adjustInterval interval range := by
  constructor
  · intro h0 hr
    unfold adjustInterval
    rw [if_pos ⟨h0, hr⟩]
  · unfold adjustInterval
    exact le_max_right _ _

/-- C4 witness: at `intervalMs = 1`, `rangeMs = 22000` the hypotheses hold and
the calibrated result is `max 2 1000 = 1000`. -/
theorem adjustInterval_calibrates_witness :
    adjustInterval 1 22000 = max ⌈((22000 : Int) : ℚ) / 11000⌉ 1000 ∧
    1000 ≤ adjustInterval 1 22000 :=
  ⟨(adjustInterval_calibrates 1 22000).1 (by decide) (by norm_num),
   (adjustInterval_calibrates 1 22000).2⟩

/-! ### C5: whole-second alignment of the range window -/

/-- C5: for epoch timestamps (`0 ≤ fromNs`), the range built by
`createRangeQuery` carries `start = startNs - startNs % 1e9` and
`end = endNs + (1e9 - endNs % 1e9)`; both are exact multiples of 1e9,
`start ≤ startNs` and `endNs ≤ end`, so the aligned window contains the input
window. -/
theorem createRangeQuery_aligns (ds : DS) (t : LokiQuery) (opts : RangeQueryOptions)
    (fromNs toNs : Int) (hr : opts.range = some (fromNs, toNs))
    (hi : opts.intervalMs ≠ 0) (hs : 0 ≤ fromNs) :
    (createRangeQuery ds t opts).start = some (fromNs - fromNs.tmod NS_PER_SEC) ∧
    (createRangeQuery ds t opts).end_ = some (toNs + (NS_PER_SEC - toNs.tmod NS_PER_SEC)) ∧
    NS_PER_SEC ∣ (fromNs - fromNs.tmod NS_PER_SEC) ∧
    NS_PER_SEC ∣ (toNs + (NS_PER_SEC - toNs.tmod NS_PER_SEC)) ∧
    fromNs - fromNs.tmod NS_PER_SEC ≤ fromNs ∧
    toNs ≤ toNs + (NS_PER_SEC - toNs.tmod NS_PER_SEC) := by
  have hdiv : ∀ a : Int, NS_PER_SEC ∣ (a - a.tmod NS_PER_SEC) := by
    intro a
    refine ⟨a.tdiv NS_PER_SEC, ?_⟩
    have := Int.tdiv_add_tmod a NS_PER_SEC
    omega
  refine ⟨?_, ?_, hdiv fromNs, ?_, ?_, ?_⟩
  · simp [createRangeQuery, alignedTimes, hr, hi]
  · simp [createRangeQuery, alignedTimes, hr, hi]
  · have h1 := hdiv toNs
    have : toNs + (NS_PER_SEC - toNs.tmod NS_PER_SEC)
        = (toNs - toNs.tmod NS_PER_SEC) + NS_PER_SEC := by ring
    rw [this]
    exact dvd_add h1 dvd_rfl
  · have := Int.tmod_nonneg (a := fromNs) NS_PER_SEC hs
    omega
  · have : toNs.tmod NS_PER_SEC < NS_PER_SEC :=
      Int.tmod_lt_of_pos toNs (by norm_num [NS_PER_SEC])
    omega

/-! ### C9: escape round trip -/

/-- Single-level escaping: the form the selector string reaches after the
query-language string literal is unescaped once. -/
def escOnceChar (c : Char) : List Char :=
  if c = '\\' ∨ c ∈ specialChars ∨ c = '\'' then ['\\', c] else [c]

def escOnce : List Char → List Char
  | [] => []
  | c :: l => escOnceChar c ++ escOnce l

lemma backslash_not_special : '\\' ∉ specialChars := by decide

lemma quote_not_special : '\'' ∉ specialChars := by decide

lemma special_props : ∀ c ∈ specialChars, c ≠ '\\' ∧ c ≠ '\'' ∧ c.isAlphanum = false := by
  decide

lemma backslash_not_alphanum : ('\\' : Char).isAlphanum = false := by decide

lemma quote_not_alphanum : ('\'' : Char).isAlphanum = false := by decide

lemma unescapeOnce_pair (d : Char) (rest : List Char) :
    unescapeOnce ('\\' :: d :: rest) = (unescapeOnce rest).map (d :: ·) := by
  rw [unescapeOnce.eq_def]
  simp

lemma unescapeOnce_cons_ne (c : Char) (rest : List Char) (h : ¬c = '\\') :
    unescapeOnce (c :: rest) = (unescapeOnce rest).map (c :: ·) := by
  rw [unescapeOnce.eq_def]
  simp [h]

lemma parseAsLiteral_pair (d : Char) (rest : List Char) (h : d.isAlphanum = false) :
    parseAsLiteral ('\\' :: d :: rest) = (parseAsLiteral rest).map (d :: ·) := by
  rw [parseAsLiteral.eq_def]
  simp [h]

lemma parseAsLiteral_cons_ne (c : Char) (rest : List Char) (h1 : ¬c = '\\')
    (h2 : c ∉ regexMetaChars) :
    parseAsLiteral (c :: rest) = (parseAsLiteral rest).map (c :: ·) := by
  rw [parseAsLiteral.eq_def]
  simp [h1, h2]

/-- Unescaping the doubly-escaped output once yields the singly-escaped
form. -/
lemma unescapeOnce_escape (l : List Char) :
    unescapeOnce (escQuotes (escSpecials (escBackslashes l))) = some (escOnce l) := by
  induction l with
  | nil => simp [escBackslashes, escSpecials, escQuotes, unescapeOnce, escOnce]
  | cons c l ih =>
    by_cases h1 : c = '\\'
    · subst h1
      simp +decide [escBackslashes, escSpecials, escQuotes, escOnce,
        escOnceChar, ih, backslash_not_special, unescapeOnce_pair]
    · by_cases h2 : c ∈ specialChars
      · obtain ⟨hq1, hq2, _⟩ := special_props c h2
        simp +decide [escBackslashes, escSpecials, escQuotes, escOnce,
          escOnceChar, ih, h1, h2, hq2, unescapeOnce_pair, unescapeOnce_cons_ne]
      · by_cases h3 : c = '\''
        · subst h3
          simp +decide [escBackslashes, escSpecials, escQuotes, escOnce,
            escOnceChar, ih, h1, h2, unescapeOnce_pair, unescapeOnce_cons_ne]
        · simp +decide [escBackslashes, escSpecials, escQuotes, escOnce,
            escOnceChar, ih, h1, h2, h3, unescapeOnce_cons_ne]

/-- The singly-escaped form is a pure literal pattern denoting the original
characters. -/
lemma parseAsLiteral_escOnce (l : List Char) :
    parseAsLiteral (escOnce l) = some l := by
  induction l with
  | nil => simp [escOnce, parseAsLiteral]
  | cons c l ih =>
    by_cases h : c = '\\' ∨ c ∈ specialChars ∨ c = '\''
    · have hna : c.isAlphanum = false := by
        rcases h with h | h | h
        · rw [h]; exact backslash_not_alphanum
        · exact (special_props c h).2.2
        · rw [h]; exact quote_not_alphanum
      simp +decide [escOnce, escOnceChar, h, hna, ih, parseAsLiteral_pair]
    · push_neg at h
      obtain ⟨hb, hs, hq⟩ := h
      have hm : c ∉ regexMetaChars := by
        simp only [regexMetaChars, List.mem_cons]
        rintro (h | h)
        · exact hb h
        · exact hs h
      simp [escOnce, escOnceChar, hb, hs, hq, ih, parseAsLiteral_cons_ne c _ hb hm]

/-- C9: escaping any string with `lokiSpecialRegexEscape` and using the result
as a selector gives a pattern that, after the query string literal is
unescaped once, is a pure literal regex — never regex syntax — whose
denotation is exactly the original string, so the selector matches the
original literal string and nothing else. -/
theorem lokiSpecialRegexEscape_literal_roundtrip (s : String) :
    literalMeaning (lokiSpecialRegexEscape s) = some s.data := by
  have hdata : (lokiSpecialRegexEscape s).data
      = escQuotes (escSpecials (escBackslashes s.data)) := rfl
  rw [literalMeaning, hdata, unescapeOnce_escape, Option.some_bind,
    parseAsLiteral_escOnce]

/-! ### C3: version resolver -/

/-- C3: `getVersion` never rejects — modelled by its total return type, which
is justified because the source chains a catch-all `.catch` that maps every
probe rejection to a resolved version.  On an uncached call it issues exactly
the probe, resolves `"v0"` exactly when the probe failed with status 404, and
resolves `"v1"` on probe success and on every non-404 failure; a cached call
returns the cached value with no probe and unchanged state; and after every
call the cache holds the returned version, so a set version is never reset. -/
theorem getVersion_spec (ds : DS) (backend : Backend) :
    (ds.version = none →
      ((getVersion ds backend).1 = "v0" ↔
        ∃ e, backend.probe = Outcome.fail e ∧ e.status = 404) ∧
      (∀ st body, backend.probe = Outcome.ok st body →
        (getVersion ds backend).1 = "v1") ∧
      (∀ e, backend.probe = Outcome.fail e → e.status ≠ 404 →
        (getVersion ds backend).1 = "v1") ∧
      (getVersion ds backend).2.1 = [Req.probe]) ∧
    (∀ v, ds.version = some v → getVersion ds backend = (v, [], ds)) ∧
    (getVersion ds backend).2.2.version = some (getVersion ds backend).1 := by
  match hv : ds.version with
  | some v =>
    refine ⟨by simp [hv], ?_, ?_⟩
    · intro w hw
      cases hw
      simp [getVersion, hv]
    · simp [getVersion, hv]
  | none =>
    match hp : backend.probe with
    | Outcome.ok st body =>
      refine ⟨?_, by simp [hv], by simp [getVersion, hv, hp]⟩
      intro _
      refine ⟨?_, ?_, ?_, ?_⟩
      · constructor
        · intro h
          simp [getVersion, hv, hp] at h
        · rintro ⟨e, he, _⟩
          exact Outcome.noConfusion he
      · intro st2 body2 _
        simp [getVersion, hv, hp]
      · intro e2 he2 _
        exact Outcome.noConfusion he2
      · simp [getVersion, hv, hp]
    | Outcome.fail e =>
      refine ⟨?_, by simp [hv], ?_⟩
      · intro _
        refine ⟨?_, ?_, ?_, ?_⟩
        · constructor
          · intro h
            refine ⟨e, rfl, ?_⟩
            by_contra h404
            simp [getVersion, hv, hp, h404] at h
          · rintro ⟨e2, he2, h404⟩
            injection he2 with he3
            subst he3
            simp [getVersion, hv, hp, h404]
        · intro st body hok
          exact Outcome.noConfusion hok
        · intro e2 he2 hne
          injection he2 with he3
          subst he3
          simp [getVersion, hv, hp, hne]
        · simp [getVersion, hv, hp]
      · by_cases h404 : e.status = 404
        · simp [getVersion, hv, hp, h404]
        · simp [getVersion, hv, hp, h404]

/-- C3 witness: with an empty cache, a probe failing with status 404 resolves
`"v0"` after exactly one probe request, and a succeeding probe resolves
`"v1"`. -/
theorem getVersion_spec_witness :
    (getVersion ⟨1000, "", none, id⟩
        ⟨Outcome.ok 200 ⟨LokiResultType.matrix, "r"⟩,
         Outcome.ok 200 ⟨LokiResultType.matrix, "r"⟩,
         Outcome.ok 200 "s",
         Outcome.fail ⟨404, false, none, none, none⟩⟩).1 = "v0" ∧
    (getVersion ⟨1000, "", none, id⟩
        ⟨Outcome.ok 200 ⟨LokiResultType.matrix, "r"⟩,
         Outcome.ok 200 ⟨LokiResultType.matrix, "r"⟩,
         Outcome.ok 200 "s",
         Outcome.fail ⟨404, false, none, none, none⟩⟩).2.1 = [Req.probe] ∧
    (getVersion ⟨1000, "", none, id⟩
        ⟨Outcome.ok 200 ⟨LokiResultType.matrix, "r"⟩,
         Outcome.ok 200 ⟨LokiResultType.matrix, "r"⟩,
         Outcome.ok 200 "s",
         Outcome.ok 200 ⟨LokiResultType.matrix, "p"⟩⟩).1 = "v1" := by
  have h := getVersion_spec ⟨1000, "", none, id⟩
    ⟨Outcome.ok 200 ⟨LokiResultType.matrix, "r"⟩,
     Outcome.ok 200 ⟨LokiResultType.matrix, "r"⟩,
     Outcome.ok 200 "s",
     Outcome.fail ⟨404, false, none, none, none⟩⟩
  have h2 := getVersion_spec ⟨1000, "", none, id⟩
    ⟨Outcome.ok 200 ⟨LokiResultType.matrix, "r"⟩,
     Outcome.ok 200 ⟨LokiResultType.matrix, "r"⟩,
     Outcome.ok 200 "s",
     Outcome.ok 200 ⟨LokiResultType.matrix, "p"⟩⟩
  exact ⟨(h.1 rfl).1.mpr ⟨⟨404, false, none, none, none⟩, rfl, rfl⟩,
    (h.1 rfl).2.2.2, (h2.1 rfl).2.1 200 ⟨LokiResultType.matrix, "p"⟩ rfl⟩

/-! ### C6: instant query mode mismatch -/

/-- C6: when the instant endpoint responds with a body declaring
`resultType = "streams"`, `runInstantQuery` fails with the mode-mismatch
error and emits no data envelope; for any other declared result type it emits
exactly one table envelope keyed `"<refId>_instant"`. -/
theorem runInstantQuery_mode_mismatch (ds : DS) (t : LokiQuery) (backend : Backend)
    (rangeTo : Int) (mdp : Option Nat) (n : Nat) (st : Nat) (body : ModernBody)
    (hb : backend.instant = Outcome.ok st body) :
    (body.resultType = LokiResultType.stream →
      (runInstantQuery ds t backend rangeTo mdp n).1 = SubResult.fails modeMismatchError) ∧
    (body.resultType ≠ LokiResultType.stream →
      (runInstantQuery ds t backend rangeTo mdp n).1 = SubResult.emits
        { data := [FrameData.instantTable body.result n t.refId]
          key := some (t.refId ++ "_instant")
          state := none }) := by
  constructor
  · intro h
    simp [runInstantQuery, hb, h]
  · intro h
    simp [runInstantQuery, hb, h]

/-- C6 witness: a streams-typed instant response fails with the mode-mismatch
error. -/
theorem runInstantQuery_mode_mismatch_witness :
    (runInstantQuery ⟨1000, "", none, id⟩ ⟨"x", "A", false, false⟩
        ⟨Outcome.ok 200 ⟨LokiResultType.matrix, "r"⟩,
         Outcome.ok 200 ⟨LokiResultType.stream, "r"⟩,
         Outcome.ok 200 "s",
         Outcome.ok 200 ⟨LokiResultType.matrix, "r"⟩⟩ 1000000000 (some 100) 1).1
      = SubResult.fails modeMismatchError :=
  (runInstantQuery_mode_mismatch ⟨1000, "", none, id⟩ ⟨"x", "A", false, false⟩
    ⟨Outcome.ok 200 ⟨LokiResultType.matrix, "r"⟩,
     Outcome.ok 200 ⟨LokiResultType.stream, "r"⟩,
     Outcome.ok 200 "s",
     Outcome.ok 200 ⟨LokiResultType.matrix, "r"⟩⟩ 1000000000 (some 100) 1 200
    ⟨LokiResultType.stream, "r"⟩ rfl).1 rfl

/-! ### C7: limit clamping -/

/-- C7 (counterexample): with `maxDataPoints = 0` the code's
`maxDataPoints || Infinity` treats the value as absent, so the built instant
request's limit and the live target's size are the configured maximum (1000)
and not `min(0, 1000) = 0` as the claim's unconditional `min` requires. -/
theorem limit_not_min_counterexample :
    (instantQueryRequest ⟨1000, "", none, id⟩ ⟨"x", "A", false, false⟩ 0 (some 0)).limit
      = 1000 ∧
    (createLiveTarget ⟨1000, "", none, id⟩ ⟨"x", "A", false, false⟩ (some 0)).size = 1000 ∧
    min 0 1000 = 0 ∧ (1000 : Nat) ≠ 0 := by
  refine ⟨?_, ?_, ?_, ?_⟩ <;> decide

/-- C7 (amended): when `maxDataPoints` is present and positive, the built
instant request's `limit` and the live target's `size` equal
`min maxDataPoints configuredMax`; when it is absent or zero they equal the
configured maximum instead. -/
theorem limit_min_clamped (ds : DS) (t : LokiQuery) (rangeTo : Int) (m : Nat)
    (hm : 0 < m) :
    (instantQueryRequest ds t rangeTo (some m)).limit = min m ds.maxLines ∧
    (createLiveTarget ds t (some m)).size = min m ds.maxLines ∧
    (instantQueryRequest ds t rangeTo none).limit = ds.maxLines ∧
    (createLiveTarget ds t none).size = ds.maxLines ∧
    (instantQueryRequest ds t rangeTo (some 0)).limit = ds.maxLines ∧
    (createLiveTarget ds t (some 0)).size = ds.maxLines := by
  have hm0 : m ≠ 0 := Nat.pos_iff_ne_zero.mp hm
  refine ⟨?_, ?_, ?_, ?_, ?_, ?_⟩ <;>
    simp [instantQueryRequest, createLiveTarget, jsLimit, hm0]

/-- C7 witness: `maxDataPoints = 100` with a configured maximum of 1000 gives
limit and size 100. -/
theorem limit_min_clamped_witness :
    (instantQueryRequest ⟨1000, "", none, id⟩ ⟨"x", "A", false, false⟩ 0 (some 100)).limit
      = min 100 1000 ∧
    (createLiveTarget ⟨1000, "", none, id⟩ ⟨"x", "A", false, false⟩ (some 100)).size
      = min 100 1000 :=
  ⟨(limit_min_clamped ⟨1000, "", none, id⟩ ⟨"x", "A", false, false⟩ 0 100 (by decide)).1,
   (limit_min_clamped ⟨1000, "", none, id⟩ ⟨"x", "A", false, false⟩ 0 100 (by decide)).2.1⟩

/-! ### C8: empty dispatch -/

/-- C8: when every target has an empty expression or the hide flag, the
dispatcher returns exactly one envelope with empty data and state Done,
issues zero requests, and leaves the instance state unchanged. -/
theorem query_no_eligible_targets (ds : DS) (options : DataQueryRequest)
    (backend : Backend)
    (h : ∀ t ∈ options.targets, t.expr = "" ∨ t.hide = true) :
    query ds options backend =
      ([SubResult.emits { data := [], key := none, state := some LoadState.Done }], [], ds) := by
  have hfilter : filterTargets ds options.targets = [] := by
    unfold filterTargets
    have : options.targets.filter (fun t => t.expr ≠ "" && !t.hide) = [] := by
      rw [List.filter_eq_nil_iff]
      intro t ht
      rcases h t ht with he | hh
      · simp [he]
      · simp [hh]
    rw [this]
    rfl
  simp [query, hfilter]

/-- C8 witness: one hidden target and one with an empty expression produce the
single empty Done envelope and no requests. -/
theorem query_no_eligible_targets_witness :
    query ⟨1000, "", none, id⟩
        ⟨[⟨"", "A", false, false⟩, ⟨"x", "B", true, false⟩], ExploreMode.Logs,
          (0, 1000000000), 1000, some 100, false⟩
        ⟨Outcome.ok 200 ⟨LokiResultType.matrix, "r"⟩,
         Outcome.ok 200 ⟨LokiResultType.matrix, "r"⟩,
         Outcome.ok 200 "s",
         Outcome.ok 200 ⟨LokiResultType.matrix, "r"⟩⟩ =
      ([SubResult.emits { data := [], key := none, state := some LoadState.Done }], [],
        ⟨1000, "", none, id⟩) :=
  query_no_eligible_targets ⟨1000, "", none, id⟩
    ⟨[⟨"", "A", false, false⟩, ⟨"x", "B", true, false⟩], ExploreMode.Logs,
      (0, 1000000000), 1000, some 100, false⟩
    ⟨Outcome.ok 200 ⟨LokiResultType.matrix, "r"⟩,
     Outcome.ok 200 ⟨LokiResultType.matrix, "r"⟩,
     Outcome.ok 200 "s",
     Outcome.ok 200 ⟨LokiResultType.matrix, "r"⟩⟩
    (by intro t ht; fin_cases ht <;> simp)

/-! ### C1: 404 fallback to the legacy endpoint -/

/-- C1: for a non-live target, when the modern range endpoint fails with
status 404 (and the request was not cancelled), `runRangeQueryWithFallback`
issues exactly one request to the legacy endpoint `/api/prom/query` — the
full trace is the modern range request followed by the one legacy request —
and, when the legacy endpoint responds, the returned envelope is the legacy
converter applied to the legacy response body (keyed `"<refId>_log"`), not
anything derived from the modern 404 response. -/
theorem runRangeQueryWithFallback_404_fallback (ds : DS) (t : LokiQuery)
    (backend : Backend) (opts : RangeQueryOptions) (n : Nat) (e : TransportErr)
    (hl : t.liveStreaming = false) (hb : backend.range = Outcome.fail e)
    (h404 : e.status = 404) (hc : e.cancelled = false) :
    (runRangeQueryWithFallback ds t backend opts n).2.1 =
      [Req.rangeQuery (createRangeQuery ds t opts),
       Req.legacyQuery (legacyQueryRequest ds t opts)] ∧
    ((runRangeQueryWithFallback ds t backend opts n).2.1.filter
        fun r => reqUrl r == LEGACY_QUERY_ENDPOINT) =
      [Req.legacyQuery (legacyQueryRequest ds t opts)] ∧
    (∀ st payload, backend.legacy = Outcome.ok st payload →
      (runRangeQueryWithFallback ds t backend opts n).1 =
        SubResult.emits
          { data := [FrameData.legacyConverted payload (legacyQueryRequest ds t opts)
              ds.maxLines]
            key := some (t.refId ++ "_log")
            state := none }) := by
  have htrace : ∀ b : Outcome String, backend.legacy = b →
      (runLegacyQuery ds t backend opts).2.1 =
        [Req.legacyQuery (legacyQueryRequest ds t opts)] := by
    rintro (⟨st, payload⟩ | e2) hlg
    · simp [runLegacyQuery, hl, hlg]
    · by_cases hc2 : e2.cancelled <;> simp [runLegacyQuery, hl, hlg, hc2]
  have hrun : runRangeQueryWithFallback ds t backend opts n =
      ((runLegacyQuery ds t backend opts).1,
        Req.rangeQuery (createRangeQuery ds t opts) ::
          (runLegacyQuery ds t backend opts).2.1,
        (runLegacyQuery ds t backend opts).2.2) := by
    simp [runRangeQueryWithFallback, hl, hb, h404, hc]
  refine ⟨?_, ?_, ?_⟩
  · rw [hrun]
    simp [htrace backend.legacy rfl]
  · rw [hrun]
    simp +decide [htrace backend.legacy rfl, List.filter, reqUrl,
      LEGACY_QUERY_ENDPOINT, RANGE_QUERY_ENDPOINT]
  · intro st payload hok
    rw [hrun]
    simp [runLegacyQuery, hl, hok]

/-- C1 witness: against a backend whose modern range endpoint returns 404 and
whose legacy endpoint succeeds, the trace is one range request then one
legacy request, and the result is the legacy-converted envelope. -/
theorem runRangeQueryWithFallback_404_fallback_witness :
    (runRangeQueryWithFallback fixtureDS fixtureTarget fixtureBackend404 fixtureOpts 1).2.1 =
      [Req.rangeQuery (createRangeQuery fixtureDS fixtureTarget fixtureOpts),
       Req.legacyQuery (legacyQueryRequest fixtureDS fixtureTarget fixtureOpts)] ∧
    (runRangeQueryWithFallback fixtureDS fixtureTarget fixtureBackend404 fixtureOpts 1).1 =
      SubResult.emits
        { data := [FrameData.legacyConverted "legacy-body"
            (legacyQueryRequest fixtureDS fixtureTarget fixtureOpts) 1000]
          key := some ("A" ++ "_log")
          state := none } := by
  have h := runRangeQueryWithFallback_404_fallback fixtureDS fixtureTarget
    fixtureBackend404 fixtureOpts 1 ⟨404, false, none, none, none⟩ rfl rfl rfl rfl
  exact ⟨h.1, h.2.2 200 "legacy-body" rfl⟩

/-! ### C2: live-streaming routing -/

/-- The streaming envelope `runLiveQuery` emits once the version is known. -/
def liveEnvelope (ds : DS) (t : LokiQuery) (mdp : Option Nat) (version : String) :
    Envelope :=
  { data := [if version = "v1" then FrameData.liveStream false (createLiveTarget ds t mdp)
             else FrameData.liveStream true (createLegacyLiveTarget ds t mdp)]
    key := some ("loki-" ++ t.refId)
    state := some LoadState.Streaming }

lemma runLiveQuery_cached (ds : DS) (t : LokiQuery) (backend : Backend)
    (mdp : Option Nat) (v : String) (hv : ds.version = some v) :
    runLiveQuery ds t backend mdp =
      (SubResult.emits (liveEnvelope ds t mdp v), [], ds) := by
  simp [runLiveQuery, getVersion, hv, liveEnvelope, createLiveTarget]

lemma runInstantQuery_trace (ds : DS) (t : LokiQuery) (backend : Backend)
    (rangeTo : Int) (mdp : Option Nat) (n : Nat) :
    (runInstantQuery ds t backend rangeTo mdp n).2.1 =
      [Req.instantQuery (instantQueryRequest ds t rangeTo mdp)] ∧
    (runInstantQuery ds t backend rangeTo mdp n).2.2 = ds := by
  rcases hbi : backend.instant with ⟨st, body⟩ | e
  · by_cases hs : body.resultType = LokiResultType.stream <;>
      simp [runInstantQuery, hbi, hs]
  · by_cases hc : e.cancelled <;> simp [runInstantQuery, hbi, hc]

/-- C2 (counterexample): in metrics mode a target with `liveStreaming = true`
still causes one HTTP request to the instant endpoint — `runInstantQuery` has
no live-streaming check — so the claim that in every mode no HTTP request is
issued for a live target is false on the code. -/
theorem liveStreaming_metrics_http_counterexample :
    fixtureLiveTarget.liveStreaming = true ∧
    (query fixtureDSCached
        ⟨[fixtureLiveTarget], ExploreMode.Metrics, (0, 1000000000), 1000, some 100, false⟩
        fixtureBackendOk).2.1 =
      [Req.instantQuery ⟨"live expr", 2000000000, 100⟩] := by
  constructor
  · rfl
  · rfl

/-- C2 (amended): for a dispatched target with `liveStreaming = true`, given
that the protocol version is already cached (otherwise the live path issues a
one-time version probe): in logs mode the target's execution is the
live-stream subscription — the streaming envelope keyed `"loki-<refId>"` —
and no HTTP request is issued for it; in metrics mode the range execution is
the live-stream subscription but one instant-endpoint HTTP request is still
issued for the target. -/
theorem liveStreaming_routes_to_stream (ds : DS) (t : LokiQuery) (backend : Backend)
    (options : DataQueryRequest) (n : Nat) (v : String)
    (hl : t.liveStreaming = true) (hv : ds.version = some v) :
    (options.exploreMode = ExploreMode.Logs →
      dispatchTarget ds t backend options n =
        ([SubResult.emits (liveEnvelope ds t options.maxDataPoints v)], [], ds)) ∧
    (options.exploreMode = ExploreMode.Metrics →
      (dispatchTarget ds t backend options n).2.1 =
        [Req.instantQuery (instantQueryRequest ds t options.range.2 options.maxDataPoints)] ∧
      (dispatchTarget ds t backend options n).1.length = 2 ∧
      (dispatchTarget ds t backend options n).1.getLast? =
        some (SubResult.emits (liveEnvelope ds t options.maxDataPoints v))) := by
  constructor
  · intro hm
    have hrr : runRangeQueryWithFallback ds t backend options.toRangeOptions n =
        (SubResult.emits (liveEnvelope ds t options.maxDataPoints v), [], ds) := by
      simp only [runRangeQueryWithFallback, hl, if_pos]
      exact runLiveQuery_cached ds t backend options.toRangeOptions.maxDataPoints v hv
    have hcheck : logsModeCheck (SubResult.emits (liveEnvelope ds t options.maxDataPoints v))
        = SubResult.emits (liveEnvelope ds t options.maxDataPoints v) := by
      by_cases hv1 : v = "v1" <;> simp [logsModeCheck, liveEnvelope, isTimeSeries, hv1]
    simp [dispatchTarget, hm, hrr, hcheck]
  · intro hm
    have hit := runInstantQuery_trace ds t backend options.range.2 options.maxDataPoints n
    have hrr : runRangeQueryWithFallback ds t backend options.toRangeOptions n =
        (SubResult.emits (liveEnvelope ds t options.maxDataPoints v), [], ds) := by
      simp only [runRangeQueryWithFallback, hl, if_pos]
      exact runLiveQuery_cached ds t backend options.toRangeOptions.maxDataPoints v hv
    refine ⟨?_, ?_, ?_⟩ <;>
      simp [dispatchTarget, hm, hit.1, hit.2, hrr]

/-- C2 witness: with a cached version, a live target in logs mode produces
only the streaming envelope with an empty trace, and in metrics mode exactly
one instant request plus the streaming envelope. -/
theorem liveStreaming_routes_to_stream_witness :
    dispatchTarget fixtureDSCached fixtureLiveTarget fixtureBackendOk
        ⟨[fixtureLiveTarget], ExploreMode.Logs, (0, 1000000000), 1000, some 100, false⟩ 1 =
      ([SubResult.emits (liveEnvelope fixtureDSCached fixtureLiveTarget (some 100) "v1")],
        [], fixtureDSCached) ∧
    (dispatchTarget fixtureDSCached fixtureLiveTarget fixtureBackendOk
        ⟨[fixtureLiveTarget], ExploreMode.Metrics, (0, 1000000000), 1000, some 100, false⟩
        1).2.1 =
      [Req.instantQuery (instantQueryRequest fixtureDSCached fixtureLiveTarget
          1000000000 (some 100))] := by
  have h1 := liveStreaming_routes_to_stream fixtureDSCached fixtureLiveTarget
    fixtureBackendOk
    ⟨[fixtureLiveTarget], ExploreMode.Logs, (0, 1000000000), 1000, some 100, false⟩ 1 "v1"
    rfl rfl
  have h2 := liveStreaming_routes_to_stream fixtureDSCached fixtureLiveTarget
    fixtureBackendOk
    ⟨[fixtureLiveTarget], ExploreMode.Metrics, (0, 1000000000), 1000, some 100, false⟩ 1 "v1"
    rfl rfl
  exact ⟨h1.1 rfl, (h2.2 rfl).1⟩

/-- C5 witness: the window `[1500000000, 2500000001]` ns is aligned to
`[1000000000, 3000000000]`. -/
theorem createRangeQuery_aligns_witness :
    (createRangeQuery ⟨1000, "", none, id⟩ ⟨"x", "A", false, false⟩
        ⟨some (1500000000, 2500000001), 1000, some 100, false⟩).start
      = some 1000000000 ∧
    (createRangeQuery ⟨1000, "", none, id⟩ ⟨"x", "A", false, false⟩
        ⟨some (1500000000, 2500000001), 1000, some 100, false⟩).end_
      = some 3000000000 := by
  have h := createRangeQuery_aligns ⟨1000, "", none, id⟩ ⟨"x", "A", false, false⟩
    ⟨some (1500000000, 2500000001), 1000, some 100, false⟩
    1500000000 2500000001 rfl (by decide) (by decide)
  refine ⟨?_, ?_⟩
  · rw [h.1]; decide
  · rw [h.2.1]; decide

end LokiDS
